import Mathlib

set_option maxRecDepth 8192

/-!
Shallow embedding of the CourseVault Electron main process
(src/electron/main.ts) together with the renderer-side log classification
(src/src/components/StatusBar.tsx): the settings gateway, the external-URL
handlers, the Python server supervisor, and the transcription worker pool.
Spawn outcomes, health-probe results and the millisecond clock are passed
in as oracles, since the OS and Date.now are outside the program.
-/

/-- JavaScript values as they arrive over the IPC control channel.
Integral and non-integral numbers are distinguished because the zod schema
uses int() constraints; a non-integral number never carries a value that any
of the validators inspects further. -/
inductive JSVal where
  | jstr (s : String)
  | jint (n : Int)
  | jnum
  | jbool (b : Bool)
  | jnull
  | jarr (xs : List JSVal)
  | jobj (fields : List (String × JSVal))
deriving Repr

/-- Test for a string value, used by the transcriptsPath, sourceDirectories
and whisperModel branches of the schema. -/
def isStr : JSVal → Bool
  | .jstr _ => true
  | _ => false

/-- Test for a number value (z.number with no int constraint), used by the
windowBounds branch of the schema. -/
def isNumber : JSVal → Bool
  | .jint _ => true
  | .jnum => true
  | _ => false

/-- Field lookup in a JavaScript object literal, first binding wins. -/
def lookupField : List (String × JSVal) → String → Option JSVal
  | [], _ => none
  | (k, v) :: rest, key => if k = key then some v else lookupField rest key

/-- Embedding of settingsSchema.safeParse (main.ts lines 12-22): the zod
discriminated union keyed on the setting name. Returns the parsed value on
success (for windowBounds, the object stripped to its width and height
fields, as z.object does) and none on any validation failure, including an
unknown setting name. -/
def parseSetting (key : String) (v : JSVal) : Option JSVal :=
  if key = "transcriptsPath" then
    if isStr v then some v else none
  else if key = "sourceDirectories" then
    match v with
    | .jarr xs => if xs.all isStr then some v else none
    | _ => none
  else if key = "serverPort" then
    match v with
    | .jint n => if 1024 ≤ n && n ≤ 65535 then some v else none
    | _ => none
  else if key = "theme" then
    match v with
    | .jstr s => if s = "dark" || s = "light" then some v else none
    | _ => none
  else if key = "llmBackend" then
    match v with
    | .jstr s => if s = "ollama" || s = "lmstudio" || s = "openai" then some v else none
    | .jnull => some v
    | _ => none
  else if key = "whisperModel" then
    if isStr v then some v else none
  else if key = "gpuAcceleration" then
    match v with
    | .jbool _ => some v
    | _ => none
  else if key = "parallelWorkers" then
    match v with
    | .jint n => if 1 ≤ n && n ≤ 8 then some v else none
    | _ => none
  else if key = "windowBounds" then
    match v with
    | .jobj fields =>
      match lookupField fields "width", lookupField fields "height" with
      | some w, some h =>
        if isNumber w && isNumber h then some (.jobj [("width", w), ("height", h)]) else none
      | _, _ => none
    | _ => none
  else none

/-- Embedding of the set-settings IPC handler (main.ts lines 838-846): parse
the request against the schema; on failure return false with the store
untouched, on success write the parsed value and return true. The store is
modelled as a total map from setting names to values. -/
def setSettings (st : String → JSVal) (key : String) (v : JSVal) :
    (String → JSVal) × Bool :=
  match parseSetting key v with
  | none => (st, false)
  | some w => ((fun k => if k = key then w else st k), true)

/-- A store with nothing set, used to instantiate the settings theorem. -/
def emptyStore : String → JSVal := fun _ => JSVal.jnull

/-- C4: a set-settings request with an unknown name or a value failing the
per-name validator returns failure with every stored value unchanged; a
request passing its validator returns success and stores the parsed value,
leaving all other names unchanged. In particular parallelWorkers 999 is
rejected (outside 1..8), theme ultraviolet is rejected (not an enumerated
value), and theme light is accepted and stored verbatim. -/
theorem set_settings_validated (st : String → JSVal) (key : String) (v : JSVal) :
    (parseSetting key v = none → setSettings st key v = (st, false)) ∧
    (∀ w, parseSetting key v = some w →
      (setSettings st key v).2 = true ∧
      (setSettings st key v).1 key = w ∧
      ∀ k, k ≠ key → (setSettings st key v).1 k = st k) ∧
    parseSetting "parallelWorkers" (.jint 999) = none ∧
    parseSetting "theme" (.jstr "ultraviolet") = none ∧
    parseSetting "theme" (.jstr "light") = some (.jstr "light") ∧
    parseSetting "someUnknownName" v = none := by
  refine ⟨?_, ?_, rfl, rfl, rfl, rfl⟩
  · intro h
    simp [setSettings, h]
  · intro w h
    refine ⟨by simp [setSettings, h], by simp [setSettings, h], ?_⟩
    intro k hk
    simp [setSettings, h, hk]

/-- Witness for set_settings_validated: the rejected parallelWorkers update
leaves the store untouched and the accepted theme update returns success. -/
theorem set_settings_validated_witness :
    setSettings emptyStore "parallelWorkers" (.jint 999) = (emptyStore, false) ∧
    (setSettings emptyStore "theme" (.jstr "light")).2 = true := by
  refine ⟨(set_settings_validated emptyStore "parallelWorkers" (.jint 999)).1 rfl, ?_⟩
  exact ((set_settings_validated emptyStore "theme" (.jstr "light")).2.1
    (.jstr "light") rfl).1

/-- Characters permitted in a URL scheme after its leading letter, per the
WHATWG parsing new URL performs. -/
def isSchemeTailChar (c : Char) : Bool :=
  c.isAlpha || c.isDigit || c = '+' || c = '-' || c = '.'

/-- Validity of a nonempty candidate scheme: a letter followed by scheme
characters. -/
def validSchemeChars : List Char → Bool
  | [] => false
  | c :: rest => c.isAlpha && rest.all isSchemeTailChar

/-- The scheme new URL(url).protocol reports, without its trailing colon and
lowercased; none when the string has no colon-terminated valid scheme, in
which case the URL constructor throws and the handler lands in its catch
branch. -/
def schemeOf (url : String) : Option String :=
  let before := url.data.takeWhile (fun c => decide (c ≠ ':'))
  if before.length = url.data.length then none
  else if validSchemeChars before then some (String.mk (before.map Char.toLower))
  else none

/-- Embedding of the open-external IPC handler (main.ts lines 1044-1055):
parse the URL; invoke shell.openExternal exactly when the protocol is http
or https; block everything else, including unparseable URLs. Returns true
when the URL is handed to the OS shell. -/
def openExternalOpens (url : String) : Bool :=
  match schemeOf url with
  | some s => decide (s = "http") || decide (s = "https")
  | none => false

/-- C2 counterexample: the claim says http://127.0.0.1:8080/admin is
rejected because it targets loopback, but the handler inspects only the
scheme and hands the loopback URL to the OS shell. -/
theorem loopback_not_blocked_cex :
    openExternalOpens "http://127.0.0.1:8080/admin" = true := by decide

/-- C2 (amended): the open-external handler opens exactly the URLs whose
parsed scheme is http or https and blocks all others, javascript URLs
included; no host or loopback check is performed, the decision being a
function of the scheme alone. -/
theorem open_external_scheme_only (url : String) :
    openExternalOpens url =
      (decide (schemeOf url = some "http") || decide (schemeOf url = some "https")) ∧
    openExternalOpens "javascript:alert(1)" = false ∧
    openExternalOpens "https://example.com" = true ∧
    openExternalOpens "file:///etc/passwd" = false := by
  refine ⟨?_, by decide, by decide, by decide⟩
  cases h : schemeOf url with
  | none => simp [openExternalOpens, h]
  | some s => simp [openExternalOpens, h]

/-- Reply of the window-open handler: the action string returned to
Electron, plus the URL passed to shell.openExternal. -/
structure WindowOpenReply where
  action : String
  openedExternally : String
deriving DecidableEq, Repr

/-- Embedding of mainWindow.webContents.setWindowOpenHandler (main.ts lines
775-778): unconditionally call shell.openExternal(url) and deny the window. -/
def windowOpenHandler (url : String) : WindowOpenReply :=
  ⟨"deny", url⟩

/-- C9: every UI navigation through the window-open path is denied as a new
window and its URL is forwarded verbatim to the OS shell opener, with no
scheme restriction and no loopback check; in particular a javascript URL
that the open-external channel blocks is still forwarded on this path. -/
theorem window_open_forwards_unfiltered (url : String) :
    (windowOpenHandler url).action = "deny" ∧
    (windowOpenHandler url).openedExternally = url ∧
    (windowOpenHandler "javascript:alert(1)").openedExternally = "javascript:alert(1)" ∧
    openExternalOpens "javascript:alert(1)" = false ∧
    (windowOpenHandler "http://127.0.0.1:8080/admin").openedExternally =
      "http://127.0.0.1:8080/admin" := by
  exact ⟨rfl, rfl, rfl, by decide, rfl⟩

/-- Bookkeeping record for one spawned child process: an identity fresh per
spawn attempt plus the pid the OS reported, none when the spawn failed. -/
structure ChildHandle where
  spawnId : Nat
  pid : Option Nat
deriving DecidableEq, Repr

/-- Main-process globals the server supervisor reads and writes (main.ts
lines 209-213): the stored child handle and the isQuitting flag, plus ghost
fields recording every spawn performed in order and the number of crash
restarts scheduled, so that the theorems can speak about process identity
and restart counting. -/
structure SupervisorState where
  pythonProcess : Option ChildHandle
  isQuitting : Bool
  nextSpawnId : Nat
  spawned : List Nat
  restartsScheduled : Nat
deriving DecidableEq, Repr

/-- Outcome the OS reports for one spawn syscall. -/
structure SpawnOutcome where
  pid : Option Nat
deriving DecidableEq, Repr

/-- Result of one startPythonServer call: the new global state, the identity
of the process this call spawned (none when the script was missing), and
whether the close listener was registered, which happens only after the pid
check passes. -/
structure StartResult where
  state : SupervisorState
  spawnedId : Option Nat
  closeHandlerRegistered : Bool
deriving DecidableEq, Repr

/-- Embedding of startPythonServer (main.ts lines 265-359). The function
performs no check of the existing pythonProcess: it assigns the freshly
spawned child to the global unconditionally. When the server script is
missing it returns before spawning; when the spawn yields no pid it returns
after the assignment but before registering the stream and close listeners. -/
def startPythonServer (s : SupervisorState) (scriptExists : Bool)
    (o : SpawnOutcome) : StartResult :=
  if scriptExists = false then ⟨s, none, false⟩
  else
    let h : ChildHandle := ⟨s.nextSpawnId, o.pid⟩
    let s1 : SupervisorState :=
      { s with pythonProcess := some h
               nextSpawnId := s.nextSpawnId + 1
               spawned := s.spawned ++ [s.nextSpawnId] }
    if o.pid = none then ⟨s1, some h.spawnId, false⟩
    else ⟨s1, some h.spawnId, true⟩

/-- Embedding of stopPythonServer (main.ts lines 393-413): when a handle is
stored, request OS termination of that process and null the global. No
other flag is touched; in particular isQuitting is left as it was. -/
def stopPythonServer (s : SupervisorState) : SupervisorState :=
  match s.pythonProcess with
  | none => s
  | some _ => { s with pythonProcess := none }

/-- Fixed crash-restart backoff, the 2000 ms passed to setTimeout in the
close listener. -/
def backoffMs : Nat := 2000

/-- Result of the close listener: the new global state and the delay of the
restart it scheduled, none when no restart was scheduled. -/
structure CloseResult where
  state : SupervisorState
  restartDelayMs : Option Nat
deriving DecidableEq, Repr

/-- Embedding of the close listener registered on the server process
(main.ts lines 347-355): null the global handle, then schedule exactly one
startPythonServer call after the fixed backoff unless isQuitting is set.
The ghost restartsScheduled counter records each scheduled restart. -/
def onPythonClose (s : SupervisorState) : CloseResult :=
  let s1 := { s with pythonProcess := none }
  if s.isQuitting then ⟨s1, none⟩
  else ⟨{ s1 with restartsScheduled := s1.restartsScheduled + 1 }, some backoffMs⟩

/-- Reply of the get-server-status IPC handler. -/
structure ServerStatusReply where
  running : Bool
  port : Nat
deriving DecidableEq, Repr

/-- Embedding of the get-server-status IPC handler (main.ts lines 849-854):
running is reported exactly when the stored handle is non-null. -/
def getServerStatus (s : SupervisorState) (port : Nat) : ServerStatusReply :=
  ⟨s.pythonProcess.isSome, port⟩

/-- Supervisor state at application start: no handle, not quitting. -/
def supInit : SupervisorState := ⟨none, false, 0, [], 0⟩

/-- C1 counterexample: from the initial state, a successful start stores a
running handle, yet a second start without an intervening stop is not a
no-op: it spawns a second process and returns the identity of the second
spawn, not the identity of the first. -/
theorem start_not_idempotent_cex :
    (startPythonServer supInit true ⟨some 100⟩).state.pythonProcess =
      some ⟨0, some 100⟩ ∧
    (startPythonServer (startPythonServer supInit true ⟨some 100⟩).state
        true ⟨some 101⟩).spawnedId = some 1 ∧
    (startPythonServer supInit true ⟨some 100⟩).spawnedId = some 0 ∧
    (startPythonServer (startPythonServer supInit true ⟨some 100⟩).state
        true ⟨some 101⟩).state.spawned = [0, 1] := by decide

/-- C1 (amended): startPythonServer never checks for an existing active
handle. Every call with the script present spawns a fresh process and
overwrites the stored handle with that new identity, so two successive
start calls without an intervening stop spawn two distinct processes and
return two distinct identities, and the first process is no longer tracked
by any handle. -/
theorem start_always_spawns (s : SupervisorState) (o1 o2 : SpawnOutcome) :
    (startPythonServer s true o1).spawnedId = some s.nextSpawnId ∧
    (startPythonServer s true o1).state.pythonProcess =
      some ⟨s.nextSpawnId, o1.pid⟩ ∧
    (startPythonServer (startPythonServer s true o1).state true o2).spawnedId =
      some (s.nextSpawnId + 1) ∧
    (startPythonServer (startPythonServer s true o1).state true o2).spawnedId ≠
      (startPythonServer s true o1).spawnedId ∧
    (startPythonServer (startPythonServer s true o1).state true o2).state.spawned =
      s.spawned ++ [s.nextSpawnId, s.nextSpawnId + 1] := by
  have h1 : startPythonServer s true o1 =
      ⟨{ s with pythonProcess := some ⟨s.nextSpawnId, o1.pid⟩
                nextSpawnId := s.nextSpawnId + 1
                spawned := s.spawned ++ [s.nextSpawnId] },
        some s.nextSpawnId, o1.pid ≠ none⟩ := by
    unfold startPythonServer
    cases h : o1.pid <;> simp [h]
  have h2 : ∀ t : SupervisorState, startPythonServer t true o2 =
      ⟨{ t with pythonProcess := some ⟨t.nextSpawnId, o2.pid⟩
                nextSpawnId := t.nextSpawnId + 1
                spawned := t.spawned ++ [t.nextSpawnId] },
        some t.nextSpawnId, o2.pid ≠ none⟩ := by
    intro t
    unfold startPythonServer
    cases h : o2.pid <;> simp [h]
  rw [h1, h2]
  simp

/-- C3 counterexample: stopPythonServer sets no flag that the close listener
consults. After an explicit stop of a running server, the exit event of the
killed process still schedules a replacement start after the backoff,
because isQuitting is still false. -/
theorem stop_does_not_suppress_restart_cex :
    (onPythonClose (stopPythonServer ⟨some ⟨0, some 100⟩, false, 1, [0], 0⟩)).restartDelayMs =
      some 2000 ∧
    (stopPythonServer ⟨some ⟨0, some 100⟩, false, 1, [0], 0⟩).isQuitting = false := by
  decide

/-- C3 (amended): when the server process exits, the close listener clears
the stored handle; unless isQuitting is set it schedules exactly one
replacement start after the fixed 2000 ms backoff, incrementing the restart
count by exactly one; when isQuitting is set no replacement is scheduled.
Only application shutdown sets isQuitting: stopPythonServer leaves the flag
untouched, so a stop does not suppress this path. -/
theorem crash_restart_schedules_one (hd : Option ChildHandle) (q : Bool)
    (n : Nat) (l : List Nat) (r : Nat) :
    (onPythonClose ⟨hd, false, n, l, r⟩).state.pythonProcess = none ∧
    (onPythonClose ⟨hd, false, n, l, r⟩).restartDelayMs = some backoffMs ∧
    (onPythonClose ⟨hd, false, n, l, r⟩).state.restartsScheduled = r + 1 ∧
    (onPythonClose ⟨hd, true, n, l, r⟩).state.pythonProcess = none ∧
    (onPythonClose ⟨hd, true, n, l, r⟩).restartDelayMs = none ∧
    (onPythonClose ⟨hd, true, n, l, r⟩).state.restartsScheduled = r ∧
    (stopPythonServer ⟨hd, q, n, l, r⟩).isQuitting = q := by
  refine ⟨rfl, rfl, rfl, rfl, rfl, rfl, ?_⟩
  cases hd <;> rfl

/-- Bound on health-probe attempts, the loop limit in waitForServer. -/
def maxHealthAttempts : Nat := 60

/-- Interval between health probes, the 2000 ms sleep in waitForServer. -/
def healthIntervalMs : Nat := 2000

/-- Number of health probes the waitForServer loop performs starting at
probe index i with k attempts remaining, given an oracle describing which
probes succeed: the loop returns right after the first successful probe and
otherwise exhausts its attempts. -/
def pollsFrom (health : Nat → Bool) : Nat → Nat → Nat
  | _, 0 => 0
  | i, k + 1 => if health i then 1 else 1 + pollsFrom health (i + 1) k

/-- Number of probes one waitForServer invocation performs (main.ts lines
357-390): at most maxHealthAttempts, fewer when a probe succeeds. -/
def waitForServerPolls (health : Nat → Bool) : Nat :=
  pollsFrom health 0 maxHealthAttempts

/-- Number of health probes awaited before the startPythonServer promise
resolves: zero when the script is missing or the spawn fails, because those
paths return before reaching waitForServer; otherwise the full waitForServer
probe count, because startPythonServer awaits waitForServer before
resolving. -/
def startServerPolls (scriptExists : Bool) (o : SpawnOutcome)
    (health : Nat → Bool) : Nat :=
  if scriptExists = false then 0
  else if o.pid = none then 0
  else waitForServerPolls health

/-- Embedding of the restart-server IPC handler (main.ts lines 857-861):
stopPythonServer followed by an awaited startPythonServer. -/
def restartServer (s : SupervisorState) (scriptExists : Bool)
    (o : SpawnOutcome) : StartResult :=
  startPythonServer (stopPythonServer s) scriptExists o

/-- Number of health probes awaited before the restart-server IPC handler
replies, equal to the probes its awaited startPythonServer performs. -/
def restartServerPolls (scriptExists : Bool) (o : SpawnOutcome)
    (health : Nat → Bool) : Nat :=
  startServerPolls scriptExists o health

/-- Helper: the probe loop never exceeds its remaining attempt budget. -/
theorem pollsFrom_le (health : Nat → Bool) : ∀ k i, pollsFrom health i k ≤ k := by
  intro k
  induction k with
  | zero => intro i; simp [pollsFrom]
  | succ n ih =>
    intro i
    have := ih (i + 1)
    cases h : health i <;> (simp [pollsFrom, h]; try omega)

/-- C5 counterexample: the claim says a start request returns as soon as the
spawn syscall succeeds, but with a successful spawn and a server that never
becomes healthy the start promise resolves only after all 60 health probes
have run, and the restart-server reply is delayed the same way. -/
theorem start_waits_for_health_cex :
    startServerPolls true ⟨some 100⟩ (fun _ => false) = 60 ∧
    restartServerPolls true ⟨some 100⟩ (fun _ => false) = 60 := by decide

/-- C5 (amended): health probing is bounded at 60 attempts on a fixed
2000 ms interval, and a start whose spawn fails resolves without probing;
but after a successful spawn the startPythonServer promise, and with it the
restart-server reply, resolves only once the health poll has observed a
success or exhausted its attempts, not as soon as the spawn syscall
succeeds. -/
theorem health_poll_bounded (health : Nat → Bool) (p i k : Nat) :
    pollsFrom health i k ≤ k ∧
    waitForServerPolls health ≤ maxHealthAttempts ∧
    startServerPolls true ⟨none⟩ health = 0 ∧
    startServerPolls true ⟨some p⟩ health = waitForServerPolls health ∧
    restartServerPolls true ⟨some p⟩ health = waitForServerPolls health ∧
    healthIntervalMs = 2000 ∧ maxHealthAttempts = 60 := by
  refine ⟨pollsFrom_le health k i, pollsFrom_le health maxHealthAttempts 0,
    rfl, rfl, rfl, rfl, rfl⟩

/-- C10: when the spawn syscall yields no pid, startPythonServer logs the
failure and returns, but only after having already stored the failed child
object in the global handle, and before registering the close listener that
would clear it. The status query reports running exactly when the stored
handle is non-null, so every subsequent get-server-status reports running
even though no server process is alive, until a stop or restart nulls the
handle. -/
theorem spawn_failure_reports_running (s s2 : SupervisorState) (port : Nat) :
    (startPythonServer s true ⟨none⟩).state.pythonProcess =
      some ⟨s.nextSpawnId, none⟩ ∧
    (startPythonServer s true ⟨none⟩).closeHandlerRegistered = false ∧
    (getServerStatus (startPythonServer s true ⟨none⟩).state port).running = true ∧
    (getServerStatus (stopPythonServer (startPythonServer s true ⟨none⟩).state)
        port).running = false ∧
    (getServerStatus s2 port).running = s2.pythonProcess.isSome := by
  refine ⟨?_, ?_, ?_, ?_, rfl⟩ <;> simp [startPythonServer, stopPythonServer, getServerStatus]

/-- Bookkeeping record for one spawned transcription worker: the ordinal
i + 1 used in its identifier, the Date.now() millisecond stamp read when it
was spawned, the pid the OS reported, and the argument list it was given. -/
structure Worker where
  ordinal : Nat
  stamp : Nat
  pid : Nat
  args : List String
deriving DecidableEq, Repr

/-- The identifier string built for worker i at millisecond stamp t,
worker dash ordinal dash stamp (main.ts line 469). It is determined by the
(ordinal, stamp) pair, and distinct pairs render to distinct strings since
neither decimal component contains a dash. -/
def renderWorkerId (ordinal stamp : Nat) : String :=
  "worker-" ++ toString ordinal ++ "-" ++ toString stamp

/-- The argument list passed to a bundled worker spawn (main.ts lines
470-475): input directory, the unique worker identifier, and the gpu flag
when acceleration is enabled. -/
def workerArgs (inputDir : String) (ordinal stamp : Nat) (gpu : Bool) :
    List String :=
  ["-i", inputDir, "--worker-id", renderWorkerId ordinal stamp] ++
    (if gpu then ["--gpu"] else [])

/-- Embedding of the spawn loop of startTranscriptionWorker (main.ts lines
467-543), spawning with index i and k iterations remaining. spawnPid gives
the pid the OS reports for the spawn at index i (none on failure) and now
gives the Date.now() reading at index i. Returns the successfully spawned
workers in order together with the number of error log events: a failed
spawn logs one error and is skipped without aborting the loop. -/
def spawnWorkers (spawnPid : Nat → Option Nat) (now : Nat → Nat)
    (inputDir : String) (gpu : Bool) : Nat → Nat → List Worker × Nat
  | _, 0 => ([], 0)
  | i, k + 1 =>
    match spawnPid i with
    | none =>
      let rest := spawnWorkers spawnPid now inputDir gpu (i + 1) k
      (rest.1, rest.2 + 1)
    | some p =>
      let rest := spawnWorkers spawnPid now inputDir gpu (i + 1) k
      (⟨i + 1, now i, p, workerArgs inputDir (i + 1) (now i) gpu⟩ :: rest.1, rest.2)

/-- The module-level transcriptionWorkers array (main.ts line 211). -/
structure PoolState where
  transcriptionWorkers : List Worker
deriving DecidableEq, Repr

/-- Result of one startTranscriptionWorker call: the new pool plus the
number of spawn-failure error log events it produced. -/
structure PoolStartResult where
  state : PoolState
  errorLogs : Nat
deriving DecidableEq, Repr

/-- Embedding of startTranscriptionWorker (main.ts lines 416-549): a no-op
when the pool is already non-empty; otherwise, when the worker executable
(the dev script or the bundled binary, lines 435-438 and 448-451) is
missing, log a single error and return without attempting any spawn;
otherwise spawn parallelWorkers processes (the stored count, with the
JavaScript or-1 fallback when it is zero), skipping and logging individual
spawn failures. -/
def startTranscriptionWorker (st : PoolState) (exeExists : Bool)
    (parallelWorkers : Nat) (spawnPid : Nat → Option Nat) (now : Nat → Nat)
    (inputDir : String) (gpu : Bool) : PoolStartResult :=
  if st.transcriptionWorkers.length > 0 then ⟨st, 0⟩
  else if exeExists = false then ⟨st, 1⟩
  else
    let n := if parallelWorkers = 0 then 1 else parallelWorkers
    let r := spawnWorkers spawnPid now inputDir gpu 0 n
    ⟨⟨r.1⟩, r.2⟩

/-- Result of the close listener of one worker: the new pool and whether the
pool-drained status event was emitted. -/
structure WorkerCloseResult where
  state : PoolState
  stoppedEvent : Bool
deriving DecidableEq, Repr

/-- Embedding of the per-worker close listener (main.ts lines 531-540):
remove the exited worker from the array and, when the array becomes empty,
emit the stopped status event. -/
def onWorkerClose (st : PoolState) (w : Worker) : WorkerCloseResult :=
  let ws := st.transcriptionWorkers.filter (fun v => decide (v ≠ w))
  ⟨⟨ws⟩, ws.isEmpty⟩

/-- Reply of the get-transcription-status IPC handler. -/
structure TranscriptionStatusReply where
  running : Bool
  workerCount : Nat
  pids : List Nat
deriving DecidableEq, Repr

/-- Embedding of the get-transcription-status IPC handler (main.ts lines
874-880): running when the array is non-empty, the worker count, and the
pids of the tracked workers. -/
def getTranscriptionStatus (st : PoolState) : TranscriptionStatusReply :=
  ⟨decide (0 < st.transcriptionWorkers.length), st.transcriptionWorkers.length,
    st.transcriptionWorkers.map (·.pid)⟩

/-- Number of spawn successes the oracle reports from index i over k
attempts. -/
def successCount (spawnPid : Nat → Option Nat) : Nat → Nat → Nat
  | _, 0 => 0
  | i, k + 1 =>
    (if (spawnPid i).isSome then 1 else 0) + successCount spawnPid (i + 1) k

/-- Helper: the spawn loop keeps exactly the successful spawns and logs one
error per failure. -/
theorem spawnWorkers_length (spawnPid : Nat → Option Nat) (now : Nat → Nat)
    (inputDir : String) (gpu : Bool) :
    ∀ k i, (spawnWorkers spawnPid now inputDir gpu i k).1.length =
        successCount spawnPid i k ∧
      (spawnWorkers spawnPid now inputDir gpu i k).1.length +
        (spawnWorkers spawnPid now inputDir gpu i k).2 = k := by
  intro k
  induction k with
  | zero => intro i; simp [spawnWorkers, successCount]
  | succ n ih =>
    intro i
    have := ih (i + 1)
    cases h : spawnPid i <;> simp [spawnWorkers, successCount, h] <;> omega

/-- C6 counterexample: with the pool empty, the configured count 4, and the
worker executable missing, startTranscriptionWorker aborts before its spawn
loop: even under a spawn oracle on which every attempted spawn would have
succeeded, no worker is spawned and exactly one error is logged, so the
claimed attempt of the requested number of spawns, with one error log per
individual spawn failure, fails: the worker count plus the error logs is 1,
not 4. -/
theorem start_pool_aborts_on_missing_exe_cex :
    startTranscriptionWorker ⟨[]⟩ false 4 (fun _ => some 100) (fun _ => 1000)
      "d" false = ⟨⟨[]⟩, 1⟩ ∧
    (getTranscriptionStatus (startTranscriptionWorker ⟨[]⟩ false 4
        (fun _ => some 100) (fun _ => 1000) "d" false).state).workerCount +
      (startTranscriptionWorker ⟨[]⟩ false 4 (fun _ => some 100)
        (fun _ => 1000) "d" false).errorLogs = 1 ∧
    (1 : Nat) ≠ 4 := by decide

/-- C6 (amended): starting the pool while it is non-empty changes nothing
and logs nothing, whether or not the executable is present; starting it
while empty with the executable missing aborts with a single error log and
zero spawn attempts; starting it while empty with the executable present
and a positive configured count attempts exactly that many spawns, and the
status query immediately afterwards reports a worker count equal to the
number of successful spawns, which is at most the requested count, with one
error log event per failed spawn. -/
theorem start_pool_spawn_accounting (e : Bool) (w : Worker) (ws : List Worker)
    (m n : Nat) (spawnPid : Nat → Option Nat) (now : Nat → Nat) (d : String)
    (g : Bool) :
    startTranscriptionWorker ⟨w :: ws⟩ e m spawnPid now d g = ⟨⟨w :: ws⟩, 0⟩ ∧
    startTranscriptionWorker ⟨[]⟩ false m spawnPid now d g = ⟨⟨[]⟩, 1⟩ ∧
    (getTranscriptionStatus
        (startTranscriptionWorker ⟨[]⟩ true (n + 1) spawnPid now d g).state).workerCount =
      successCount spawnPid 0 (n + 1) ∧
    successCount spawnPid 0 (n + 1) ≤ n + 1 ∧
    (getTranscriptionStatus
        (startTranscriptionWorker ⟨[]⟩ true (n + 1) spawnPid now d g).state).workerCount +
      (startTranscriptionWorker ⟨[]⟩ true (n + 1) spawnPid now d g).errorLogs = n + 1 := by
  have hlen := spawnWorkers_length spawnPid now d g (n + 1) 0
  refine ⟨by simp [startTranscriptionWorker], by simp [startTranscriptionWorker],
    ?_, ?_, ?_⟩
  · simp [startTranscriptionWorker, getTranscriptionStatus]
    exact hlen.1
  · omega
  · simp [startTranscriptionWorker, getTranscriptionStatus]
    omega

/-- Helper: every worker produced by the spawn loop starting at index i
carries the ordinal j + 1 and the stamp now j of its own spawn index j. -/
theorem spawnWorkers_mem (spawnPid : Nat → Option Nat) (now : Nat → Nat)
    (inputDir : String) (gpu : Bool) :
    ∀ k i w, w ∈ (spawnWorkers spawnPid now inputDir gpu i k).1 →
      ∃ j, i ≤ j ∧ j < i + k ∧ w.ordinal = j + 1 ∧ w.stamp = now j := by
  intro k
  induction k with
  | zero => intro i w hw; simp [spawnWorkers] at hw
  | succ n ih =>
    intro i w hw
    cases h : spawnPid i with
    | none =>
      simp [spawnWorkers, h] at hw
      obtain ⟨j, h1, h2, h3, h4⟩ := ih (i + 1) w hw
      exact ⟨j, by omega, by omega, h3, h4⟩
    | some p =>
      simp [spawnWorkers, h] at hw
      rcases hw with hw | hw
      · exact ⟨i, le_refl i, by omega, by rw [hw], by rw [hw]⟩
      · obtain ⟨j, h1, h2, h3, h4⟩ := ih (i + 1) w hw
        exact ⟨j, by omega, by omega, h3, h4⟩

/-- Helper: the ordinals along one spawn loop are strictly increasing. -/
theorem spawnWorkers_ordinals_pairwise (spawnPid : Nat → Option Nat)
    (now : Nat → Nat) (inputDir : String) (gpu : Bool) :
    ∀ k i, (spawnWorkers spawnPid now inputDir gpu i k).1.Pairwise
      (fun a b => a.ordinal < b.ordinal) := by
  intro k
  induction k with
  | zero => intro i; simp [spawnWorkers]
  | succ n ih =>
    intro i
    cases h : spawnPid i with
    | none => simpa [spawnWorkers, h] using ih (i + 1)
    | some p =>
      simp only [spawnWorkers, h]
      refine List.Pairwise.cons ?_ (ih (i + 1))
      intro b hb
      obtain ⟨j, h1, _, h3, _⟩ :=
        spawnWorkers_mem spawnPid now inputDir gpu n (i + 1) b hb
      simp
      omega

/-- C7 (amended): within one startTranscriptionWorker call the worker
identifiers are pairwise distinct, their ordinals being strictly
increasing; and the identifiers of two different calls are all distinct
provided the Date.now() readings of the two calls share no value. Without
that clock assumption uniqueness fails, since the identifier is just the
ordinal paired with the millisecond reading. -/
theorem worker_ids_unique_amended (sp1 sp2 : Nat → Option Nat)
    (now1 now2 : Nat → Nat) (d : String) (g : Bool) (n1 n2 : Nat) :
    (spawnWorkers sp1 now1 d g 0 n1).1.Pairwise
      (fun a b => (a.ordinal, a.stamp) ≠ (b.ordinal, b.stamp)) ∧
    ((∀ i j, now1 i ≠ now2 j) →
      ∀ w ∈ (spawnWorkers sp1 now1 d g 0 n1).1,
      ∀ v ∈ (spawnWorkers sp2 now2 d g 0 n2).1,
        (w.ordinal, w.stamp) ≠ (v.ordinal, v.stamp)) := by
  constructor
  · refine (spawnWorkers_ordinals_pairwise sp1 now1 d g n1 0).imp ?_
    intro a b hlt heq
    have : a.ordinal = b.ordinal := congrArg Prod.fst heq
    omega
  · intro hclock w hw v hv heq
    obtain ⟨j1, _, _, _, hs1⟩ := spawnWorkers_mem sp1 now1 d g n1 0 w hw
    obtain ⟨j2, _, _, _, hs2⟩ := spawnWorkers_mem sp2 now2 d g n2 0 v hv
    have : w.stamp = v.stamp := congrArg Prod.snd heq
    exact hclock j1 j2 (by rw [← hs1, ← hs2]; exact this)

/-- Witness for worker_ids_unique_amended: two single-worker calls whose
clock readings are the constants 1000 and 2000 yield distinct identifiers. -/
theorem worker_ids_unique_amended_witness :
    ((1 : Nat), (1000 : Nat)) ≠ ((1 : Nat), (2000 : Nat)) :=
  (worker_ids_unique_amended (fun _ => some 100) (fun _ => some 200)
      (fun _ => 1000) (fun _ => 2000) "d" false 1 1).2
    (fun i j => by decide)
    ⟨1, 1000, 100, workerArgs "d" 1 1000 false⟩ (by decide)
    ⟨1, 2000, 200, workerArgs "d" 1 2000 false⟩ (by decide)

/-- C7 counterexample: a worker is spawned at millisecond 1000, exits, and
the pool is restarted at the same millisecond reading; the two spawned
workers (distinct processes, pids 100 and 200) both receive the identifier
worker-1-1000, so identifiers can be reused across startPool calls in the
same run. -/
theorem worker_id_reuse_cex :
    (startTranscriptionWorker ⟨[]⟩ true 1 (fun _ => some 100) (fun _ => 1000)
        "d" false).state.transcriptionWorkers =
      [⟨1, 1000, 100, workerArgs "d" 1 1000 false⟩] ∧
    (onWorkerClose (startTranscriptionWorker ⟨[]⟩ true 1 (fun _ => some 100)
        (fun _ => 1000) "d" false).state
        ⟨1, 1000, 100, workerArgs "d" 1 1000 false⟩).state.transcriptionWorkers = [] ∧
    (startTranscriptionWorker
        (onWorkerClose (startTranscriptionWorker ⟨[]⟩ true 1 (fun _ => some 100)
          (fun _ => 1000) "d" false).state
          ⟨1, 1000, 100, workerArgs "d" 1 1000 false⟩).state
        true 1 (fun _ => some 200) (fun _ => 1000) "d"
        false).state.transcriptionWorkers =
      [⟨1, 1000, 200, workerArgs "d" 1 1000 false⟩] ∧
    renderWorkerId 1 1000 = "worker-1-1000" ∧ (100 : Nat) ≠ 200 := by decide

/-- Classification assigned to a log entry by the renderer. -/
inductive LogType where
  | info
  | success
  | warning
  | error
  | progress
deriving DecidableEq, Repr

/-- Substring test on character lists, mirroring the JavaScript
String.includes used by the marker checks. -/
def containsSub (s pat : List Char) : Bool :=
  match s with
  | [] => pat.isEmpty
  | _ :: rest => pat.isPrefixOf s || containsSub rest pat

/-- Substring test on strings: strContains s pat is true when pat occurs in
s, the embedding of s.includes(pat). -/
def strContains (s pat : String) : Bool :=
  containsSub s.data pat.data

/-- Whitespace characters the JavaScript trim removes. -/
def isJsWhitespace (c : Char) : Bool :=
  c = ' ' || c = '\t' || c = '\n' || c = '\r'

/-- Embedding of the JavaScript String.prototype.trim: strip whitespace from
both ends. -/
def jsTrim (s : String) : String :=
  String.mk (((s.data.dropWhile isJsWhitespace).reverse.dropWhile
    isJsWhitespace).reverse)

/-- The known-benign FFmpeg markers of the worker stderr noise filter
(main.ts lines 508-514). -/
def ffmpegNoiseMarkers : List String :=
  ["Error while decoding stream",
   "Invalid data found when processing input",
   "channel element",
   "duplicate",
   "Application provided invalid",
   "Last message repeated"]

/-- Embedding of the isFFmpegNoise test: the message contains one of the
known-benign decoder markers. -/
def isFFmpegNoise (message : String) : Bool :=
  ffmpegNoiseMarkers.any (fun m => strContains message m)

/-- Routing of one worker stderr chunk: what is written to the local console
and the payload of the transcriber-error UI event, none when suppressed. -/
structure StderrRoute where
  consoleLine : String
  uiErrorEvent : Option String
deriving DecidableEq, Repr

/-- Embedding of the worker stderr handler (main.ts lines 504-529): a
message matching an FFmpeg noise marker is written (truncated) to the local
console only and never reaches the UI; any other message is written to the
console as an error and forwarded to the UI on transcriber-error with the
raw message as payload. The console prefix carries the worker ordinal; the
UI payload carries no worker identification. -/
def workerStderrRoute (ordinal : Nat) (message : String) : StderrRoute :=
  if isFFmpegNoise message then
    ⟨"[Worker " ++ toString ordinal ++ " FFmpeg] " ++
      (String.mk ((jsTrim message).data.take 100) ++ "..."), none⟩
  else
    ⟨"[Worker " ++ toString ordinal ++ " Error] " ++ message, some message⟩

/-- Routing of one worker stdout line: the local console line and the
payload of the transcriber-log UI event. -/
structure StdoutRoute where
  consoleLine : String
  uiLogEvent : String
deriving DecidableEq, Repr

/-- Embedding of the worker stdout handler (main.ts lines 490-502): every
nonempty line is written to the console with the worker ordinal prefix and
forwarded to the UI on transcriber-log with the raw line as its entire
payload; the event carries no worker identification. -/
def workerStdoutRoute (ordinal : Nat) (line : String) : StdoutRoute :=
  ⟨"[Worker " ++ toString ordinal ++ "] " ++ line, line⟩

/-- Embedding of the marker classification the renderer applies to each
transcriber-log payload (StatusBar.tsx lines 242-246). -/
def classifyTranscriberLine (t : String) : LogType :=
  if strContains t "COMPLETED" || strContains t "SUCCESS" then .success
  else if strContains t "ERROR" || strContains t "FAILED" then .error
  else if strContains t "Processing:" || strContains t "Transcribing" then .progress
  else .info

/-- Embedding of the renderer transcriber-log listener (StatusBar.tsx lines
239-249): trim the payload, drop it when empty, otherwise add a log entry
whose text is the constant Worker tag followed by the line and whose type
comes from the marker classification. -/
def rendererOnTranscriberLog (line : String) : Option (String × LogType) :=
  let t := jsTrim line
  if t = "" then none
  else some ("[Worker] " ++ t, classifyTranscriberLine t)

/-- Embedding of the renderer transcriber-error listener (StatusBar.tsx
lines 251-256): every nonempty trimmed payload becomes an error entry. -/
def rendererOnTranscriberError (line : String) : Option (String × LogType) :=
  let t := jsTrim line
  if t = "" then none
  else some ("[Worker Error] " ++ t, .error)

/-- C8 counterexample: a line matching the completion marker produces a UI
event and a rendered entry that are byte-identical no matter which worker
produced the line, so the resulting success event is not attributed to the
producing worker identifier; the payload is the raw line and the rendered
text carries only the constant Worker tag. -/
theorem success_event_not_attributed_cex :
    (workerStdoutRoute 1 "COMPLETED: Intro Course").uiLogEvent =
      (workerStdoutRoute 2 "COMPLETED: Intro Course").uiLogEvent ∧
    (workerStdoutRoute 1 "COMPLETED: Intro Course").uiLogEvent =
      "COMPLETED: Intro Course" ∧
    rendererOnTranscriberLog "COMPLETED: Intro Course" =
      some ("[Worker] COMPLETED: Intro Course", LogType.success) ∧
    strContains "[Worker] COMPLETED: Intro Course" (renderWorkerId 1 1000) =
      false := by decide

/-- Helper: a string containing a nonempty pattern is nonempty. -/
theorem strContains_ne_empty (t pat : String) (hpat : pat ≠ "")
    (h : strContains t pat = true) : t ≠ "" := by
  intro ht
  subst ht
  cases pat with
  | mk l =>
    cases l with
    | nil => exact hpat rfl
    | cons c cs => simp [strContains, containsSub] at h

/-- C8 (amended): every worker stdout line is forwarded to the UI with the
raw line as payload and classified in the renderer by content markers, a
line containing the COMPLETED marker yielding a success entry; every stderr
message matching an FFmpeg noise marker is suppressed from the UI entirely
while still being written to the local console; but no UI event carries the
producing worker identifier, attribution existing only in the local console
prefix. -/
theorem worker_log_routing_amended (o : Nat) (line msg : String) :
    (strContains (jsTrim line) "COMPLETED" = true →
      Option.map Prod.snd (rendererOnTranscriberLog line) =
        some LogType.success) ∧
    (isFFmpegNoise msg = true →
      (workerStderrRoute o msg).uiErrorEvent = none ∧
      (workerStderrRoute o msg).consoleLine =
        "[Worker " ++ toString o ++ " FFmpeg] " ++
          (String.mk ((jsTrim msg).data.take 100) ++ "...")) ∧
    (isFFmpegNoise msg = false →
      (workerStderrRoute o msg).uiErrorEvent = some msg) ∧
    (workerStdoutRoute o line).uiLogEvent = line := by
  refine ⟨?_, ?_, ?_, rfl⟩
  · intro h
    have hne : jsTrim line ≠ "" :=
      strContains_ne_empty (jsTrim line) "COMPLETED" (by decide) h
    simp [rendererOnTranscriberLog, hne, classifyTranscriberLine, h]
  · intro h
    simp [workerStderrRoute, h]
  · intro h
    simp [workerStderrRoute, h]

/-- Witness for worker_log_routing_amended: a completion line classifies as
success and a duplicate-marker stderr message is suppressed from the UI. -/
theorem worker_log_routing_amended_witness :
    Option.map Prod.snd (rendererOnTranscriberLog "COMPLETED: Intro") =
      some LogType.success ∧
    (workerStderrRoute 1 "x duplicate y").uiErrorEvent = none := by
  refine ⟨(worker_log_routing_amended 1 "COMPLETED: Intro" "x duplicate y").1
    (by decide), ?_⟩
  exact ((worker_log_routing_amended 1 "COMPLETED: Intro" "x duplicate y").2.1
    (by decide)).1
